import Mathlib

/-!
Shallow embedding of the LLM-server repository (config.py, model_server.py,
vllm_server.py, monitor.py) and proofs about its chat gateway, prompt
formatter, generation-parameter resolution, health reporter and monitor.

Python floats are embedded as rationals (ℚ); Python ints as ℤ or ℕ;
optional / possibly-missing JSON fields as `Option`; fallible HTTP handlers
as `Except` over the HTTP status code they raise.
-/

namespace LLMServer

/-! ## config.py : ModelConfig -/

namespace ModelConfig

def MODEL_NAME : String := "Qwen/Qwen2.5-32B-Instruct"

def MAX_TOKENS : Int := 2048

def TEMPERATURE : Rat := 7/10

def TOP_P : Rat := 9/10

def REPETITION_PENALTY : Rat := 11/10

end ModelConfig

/-- One generation-kwargs dictionary, the shape returned by
`ModelConfig.get_generation_kwargs` in config.py (lines 66-76) and then
selectively overwritten by model_server.chat. -/
structure GenerationKwargs where
  max_new_tokens : Int
  temperature : Rat
  top_p : Rat
  repetition_penalty : Rat
  do_sample : Bool
  pad_token_id : Int
  eos_token_id : Int
deriving DecidableEq

/-- config.py lines 66-76: the server-wide default generation parameters. -/
def get_generation_kwargs : GenerationKwargs :=
  { max_new_tokens := ModelConfig.MAX_TOKENS
    temperature := ModelConfig.TEMPERATURE
    top_p := ModelConfig.TOP_P
    repetition_penalty := ModelConfig.REPETITION_PENALTY
    do_sample := true
    pad_token_id := 151643
    eos_token_id := 151643 }

/-! ## Chat messages and the prompt formatter

model_server.py lines 149-161 and vllm_server.py lines 73-85 contain the
same `format_chat_messages` function.  A message is a JSON object read with
`message.get("role", "")` and `message.get("content", "")`, so both fields
may be absent. -/

structure Message where
  role : Option String
  content : Option String
deriving DecidableEq

/-- model_server.py lines 149-161 / vllm_server.py lines 73-85.
Accumulates one tagged block per user/assistant turn and appends the open
assistant marker. -/
def format_chat_messages (messages : List Message) : String :=
  (messages.foldl (fun acc m =>
    let role := m.role.getD ""
    let content := m.content.getD ""
    if role = "user" then
      acc ++ "<|im_start|>user\n" ++ content ++ "<|im_end|>\n"
    else if role = "assistant" then
      acc ++ "<|im_start|>assistant\n" ++ content ++ "<|im_end|>\n"
    else acc) "") ++ "<|im_start|>assistant\n"

/-- Specification-side description of one turn: the role-tagged block the
formatter must emit for a user/assistant turn, and `none` for a turn that
is silently dropped.  A missing content field is the empty string. -/
def turnBlock (m : Message) : Option String :=
  let role := m.role.getD ""
  if role = "user" then
    some ("<|im_start|>user\n" ++ m.content.getD "" ++ "<|im_end|>\n")
  else if role = "assistant" then
    some ("<|im_start|>assistant\n" ++ m.content.getD "" ++ "<|im_end|>\n")
  else none

/-! ## Chat requests and parameter resolution -/

/-- The pydantic ChatRequest of both servers: three optional sampling
overrides beside the messages. -/
structure ChatRequest where
  messages : List Message
  max_tokens : Option Int
  temperature : Option Rat
  top_p : Option Rat
  stream : Bool
deriving DecidableEq

/-- Python truthiness resolution `x or d` for an optional number
(`None` and `0` are falsy), as used by vllm_server.chat lines 209-211. -/
def pyOrRat (x : Option Rat) (d : Rat) : Rat :=
  match x with
  | none => d
  | some v => if v = 0 then d else v

/-- Python truthiness resolution `x or d` for an optional integer. -/
def pyOrInt (x : Option Int) (d : Int) : Int :=
  match x with
  | none => d
  | some v => if v = 0 then d else v

/-- The vLLM SamplingParams object built by vllm_server.chat lines 208-214
(and identically by chat_stream lines 275-281). -/
structure SamplingParams where
  max_tokens : Int
  temperature : Rat
  top_p : Rat
  repetition_penalty : Rat
  stop : List String
deriving DecidableEq

/-- vllm_server.py lines 208-214: resolve the sampling parameters for a
request.  `request.max_tokens or ModelConfig.MAX_TOKENS` is Python
truthiness: a missing, null or zero override falls back to the default. -/
def vllmSamplingParams (req : ChatRequest) : SamplingParams :=
  { max_tokens := pyOrInt req.max_tokens ModelConfig.MAX_TOKENS
    temperature := pyOrRat req.temperature ModelConfig.TEMPERATURE
    top_p := pyOrRat req.top_p ModelConfig.TOP_P
    repetition_penalty := ModelConfig.REPETITION_PENALTY
    stop := ["<|im_end|>", "<|endoftext|>"] }

/-- model_server.py lines 212-218: start from
`ModelConfig.get_generation_kwargs()` and overwrite a field only when
`if request.field:` is truthy (present and non-zero). -/
def resolveGenerationKwargs (req : ChatRequest) : GenerationKwargs :=
  let g := get_generation_kwargs
  let g := match req.max_tokens with
    | some v => if v = 0 then g else { g with max_new_tokens := v }
    | none => g
  let g := match req.temperature with
    | some v => if v = 0 then g else { g with temperature := v }
    | none => g
  let g := match req.top_p with
    | some v => if v = 0 then g else { g with top_p := v }
    | none => g
  g

/-! ## Responses shared by both servers -/

/-- The `usage` dictionary of a ChatResponse. -/
structure Usage where
  prompt_tokens : Nat
  completion_tokens : Nat
  total_tokens : Nat
deriving DecidableEq

/-- The non-streaming ChatResponse of both servers.  The wall-clock
`processing_time` field is real time and is not embedded. -/
structure ChatResponse where
  response : String
  usage : Usage
  model : String
deriving DecidableEq

/-! ## vllm_server.py : the async-streaming backend variant

`engine.generate` yields a sequence of RequestOutput snapshots for one
request.  Per the vLLM engine contract, each snapshot's
`outputs[0].text` is the cumulative text generated so far (each snapshot
extends the previous one), and the last snapshot has `finished = True`
and carries the complete generated text and token ids.  The embedding
keeps only `outputs[0]`, the single completion that vllm_server reads. -/

structure RequestOutput where
  finished : Bool
  prompt_token_ids : List Nat
  /-- `outputs[0].text`: cumulative generated text up to this snapshot. -/
  text : String
  /-- `outputs[0].token_ids`: cumulative generated token ids. -/
  token_ids : List Nat
deriving DecidableEq

/-- A deterministic engine: the snapshot stream it yields for a given
prompt and sampling parameters. -/
def Engine : Type := String → SamplingParams → List RequestOutput

/-- vllm_server.chat lines 227-231: consume the stream until the first
finished snapshot. -/
def firstFinished : List RequestOutput → Option RequestOutput
  | [] => none
  | o :: rest => if o.finished then some o else firstFinished rest

/-- vllm_server.py lines 195-257, `POST /chat`.  Errors are the HTTP
status codes the handler raises: 503 when the engine is not initialised,
500 when the stream never finishes. -/
def vllm_chat (engine : Option Engine) (req : ChatRequest) :
    Except Nat ChatResponse :=
  match engine with
  | none => Except.error 503
  | some eng =>
    let input_text := format_chat_messages req.messages
    let sampling_params := vllmSamplingParams req
    match firstFinished (eng input_text sampling_params) with
    | none => Except.error 500
    | some fin =>
      let input_tokens := fin.prompt_token_ids.length
      let output_tokens := fin.token_ids.length
      Except.ok
        { response := fin.text
          usage :=
            { prompt_tokens := input_tokens
              completion_tokens := output_tokens
              total_tokens := input_tokens + output_tokens }
          model := ModelConfig.MODEL_NAME }

/-- One server-push frame of the streaming endpoint: either a JSON chunk
whose `choices[0].delta` may carry a `content` field, or the literal
`data: [DONE]` sentinel frame. -/
inductive StreamEvent where
  | chunk (content : Option String)
  | done
deriving DecidableEq

/-- vllm_server.chat_stream.generate_stream lines 293-325: each
non-finished snapshot is framed as a chunk whose delta content is the
snapshot's `outputs[0].text`; the first finished snapshot produces a
chunk with an empty delta, then the sentinel, and the loop breaks. -/
def generate_stream : List RequestOutput → List StreamEvent
  | [] => []
  | o :: rest =>
    if o.finished then [StreamEvent.chunk none, StreamEvent.done]
    else StreamEvent.chunk (some o.text) :: generate_stream rest

/-- vllm_server.py lines 264-335, `POST /chat/stream`: resolve the same
prompt and sampling parameters, then stream the engine's snapshots. -/
def vllm_chat_stream (engine : Option Engine) (req : ChatRequest) :
    Except Nat (List StreamEvent) :=
  match engine with
  | none => Except.error 503
  | some eng =>
    let input_text := format_chat_messages req.messages
    let sampling_params := vllmSamplingParams req
    Except.ok (generate_stream (eng input_text sampling_params))

/-- What a stream consumer reconstructs: the concatenation of all delta
content fields in emission order, stopping at the `[DONE]` sentinel. -/
def concatDeltas : List StreamEvent → String
  | [] => ""
  | StreamEvent.done :: _ => ""
  | StreamEvent.chunk c :: rest => c.getD "" ++ concatDeltas rest

/-! ## model_server.py : the blocking-batch backend variant

The tokenizer and the HF model are opaque capabilities.  Per the HF
`generate` contract the returned sequence is the input ids followed by
the newly generated ids, so the backend is embedded as the function
producing the newly generated continuation. -/

structure Backend where
  tokenize : String → List Nat
  decode : List Nat → String
  /-- The newly generated ids for given input ids and kwargs;
  `model.generate` returns `input_ids ++ generated`. -/
  generated : List Nat → GenerationKwargs → List Nat

/-- model_server.py lines 196-257, `POST /chat`, instrumented with the
list of backend generation calls made (input ids and kwargs of each). -/
def model_chat_traced (loaded : Bool) (b : Backend) (req : ChatRequest) :
    Except Nat ChatResponse × List (List Nat × GenerationKwargs) :=
  if loaded = false then (Except.error 503, [])
  else
    let input_text := format_chat_messages req.messages
    let input_ids := b.tokenize input_text
    let generation_kwargs := resolveGenerationKwargs req
    let outputs := input_ids ++ b.generated input_ids generation_kwargs
    let response_text := b.decode (outputs.drop input_ids.length)
    let input_tokens := input_ids.length
    let output_tokens := outputs.length - input_tokens
    (Except.ok
      { response := response_text
        usage :=
          { prompt_tokens := input_tokens
            completion_tokens := output_tokens
            total_tokens := input_tokens + output_tokens }
        model := ModelConfig.MODEL_NAME },
     [(input_ids, generation_kwargs)])

/-- model_server.py `POST /chat` proper: the response part. -/
def model_chat (loaded : Bool) (b : Backend) (req : ChatRequest) :
    Except Nat ChatResponse :=
  (model_chat_traced loaded b req).1

/-! ## Health reporter (model_server.py lines 163-194) -/

/-- One GPUtil GPU record, as read by get_system_info. -/
structure GPUStat where
  memoryUsed : Rat
  memoryTotal : Rat
  memoryUtil : Rat
deriving DecidableEq

/-- A JSON value, the shape of the entries get_system_info puts into the
gpu_memory dict: nested per-device objects on success, a string error
marker on probe failure. -/
inductive JsonVal where
  | num (v : Rat)
  | str (s : String)
  | obj (fields : List (String × JsonVal))

/-- model_server.py lines 163-182 (get_system_info): the GPU probe
(`GPUtil.getGPUs()`, which may raise, embedded as `Option`) is degraded
to the error marker `{"error": "无法获取GPU信息"}` on failure; on success
each device becomes a nested dict of numbers; host memory percent is
read beside it. -/
def get_system_info (gpuProbe : Option (List GPUStat)) (memPercent : Rat) :
    List (String × JsonVal) × Rat :=
  match gpuProbe with
  | none => ([("error", JsonVal.str "无法获取GPU信息")], memPercent)
  | some gpus =>
    ((gpus.enum).map (fun p =>
      ("gpu_" ++ toString p.1,
       JsonVal.obj
         [("used", JsonVal.num p.2.memoryUsed),
          ("total", JsonVal.num p.2.memoryTotal),
          ("utilization", JsonVal.num (p.2.memoryUtil * 100))])),
     memPercent)

/-- pydantic validation of one value of the response model's declared
`gpu_memory: Dict[str, float]` field (model_server.py line 58): a JSON
number validates as a float; a nested object never does; a string only
coerces when numeric — the only string the handler ever produces is the
non-numeric error marker, so it fails too. -/
def validateFloat : JsonVal → Option Rat
  | JsonVal.num v => some v
  | JsonVal.str _ => none
  | JsonVal.obj _ => none

/-- pydantic validation of the whole `Dict[str, float]` field: every
value must validate, else the response-model construction raises. -/
def validateFloatDict : List (String × JsonVal) → Option (List (String × Rat))
  | [] => some []
  | (k, v) :: rest =>
    match validateFloat v, validateFloatDict rest with
    | some f, some fs => some ((k, f) :: fs)
    | _, _ => none

/-- The pydantic HealthResponse of model_server.py lines 54-59, with
gpu_memory at its declared type `Dict[str, float]`. -/
structure HealthResponse where
  status : String
  model_loaded : Bool
  gpu_memory : List (String × Rat)
  system_memory : Rat
deriving DecidableEq

/-- model_server.py lines 184-194 (`GET /health`) together with the
response-model enforcement the handler is subject to: constructing
`HealthResponse(...)` validates gpu_memory against the declared
`Dict[str, float]`; when validation fails the handler raises and the
framework surfaces HTTP 500.  The model handle is opaque, only its
presence matters. -/
def health_check (model : Option Unit) (gpuProbe : Option (List GPUStat))
    (memPercent : Rat) : Except Nat HealthResponse :=
  let si := get_system_info gpuProbe memPercent
  match validateFloatDict si.1 with
  | none => Except.error 500
  | some gm =>
    Except.ok
      { status := if model.isSome then "healthy" else "unhealthy"
        model_loaded := model.isSome
        gpu_memory := gm
        system_memory := si.2 }

/-! ## monitor.py : metric records, alerts, rolling log, summary

A persisted metric record is a JSON object read back with `.get(...)`
chains, so every nested field may be absent.  Only the fields the
monitor operations actually read are embedded. -/

/-- The `system` sub-object of a record, as read by check_alerts and
generate_summary_report: `cpu_percent`, `memory.percent`,
`disk.percent`, and the gpu mapping.  A gpu entry's value is its
`memory_percent` when the value is a dict containing that key, `none`
otherwise (covering the `{"error": str}` marker and partial dicts). -/
structure SystemMetrics where
  cpu_percent : Option Rat
  memory_percent : Option Rat
  disk_percent : Option Rat
  gpu : List (String × Option Rat)
deriving DecidableEq

/-- The `api_health` sub-object: the health endpoint's JSON on success
(its `status` field), or an error object with no `status` key at all
when the probe failed, embedded as `status = none`. -/
structure ApiHealth where
  status : Option String
deriving DecidableEq

/-- The `performance` sub-object of a record. -/
structure PerfProbe where
  response_time : Option Rat
deriving DecidableEq

/-- One persisted metric record.  Each sub-object may be absent. -/
structure MetricRecord where
  system : Option SystemMetrics
  api_health : Option ApiHealth
  performance : Option PerfProbe
deriving DecidableEq

/-- An alert, one constructor per distinct alert message template of
check_alerts (monitor.py lines 136-175), carrying the interpolated
values of that message. -/
inductive Alert where
  | cpuHigh (v : Rat)
  | memHigh (v : Rat)
  | diskHigh (v : Rat)
  | gpuHigh (id : String) (v : Rat)
  | apiUnhealthy (status : String)
  | slowResponse (v : Rat)
deriving DecidableEq

/-- monitor.py lines 156-161: the gpu loop appends one alert per device
entry that is a dict with `memory_percent` above 95, in order. -/
def gpuAlerts (gpu : List (String × Option Rat)) : List Alert :=
  gpu.filterMap (fun p =>
    match p.2 with
    | some mp => if 95 < mp then some (Alert.gpuHigh p.1 mp) else none
    | none => none)

/-- monitor.py lines 141-161: the system-resource alerts, in source
order (cpu, memory, disk, then the gpu loop).  Each `.get(..., 0)`
defaults a missing field to 0. -/
def systemAlerts (sys : SystemMetrics) : List Alert :=
  (if 90 < sys.cpu_percent.getD 0 then [Alert.cpuHigh (sys.cpu_percent.getD 0)] else [])
  ++ (if 90 < sys.memory_percent.getD 0 then [Alert.memHigh (sys.memory_percent.getD 0)] else [])
  ++ (if 90 < sys.disk_percent.getD 0 then [Alert.diskHigh (sys.disk_percent.getD 0)] else [])
  ++ gpuAlerts sys.gpu

/-- monitor.py lines 136-175 (LLMMonitor.check_alerts).  The source
appends to one list; the blocks are disjoint appends in source order.
The api block fires when `api.get("status") != "healthy"`, which is
also true when the entry has no status at all; its message interpolates
`api.get('status', 'unknown')`. -/
def check_alerts (m : MetricRecord) : List Alert :=
  (match m.system with
   | some sys => systemAlerts sys
   | none => [])
  ++ (match m.api_health with
      | some api =>
        if api.status = some "healthy" then []
        else [Alert.apiUnhealthy (api.status.getD "unknown")]
      | none => [])
  ++ (match m.performance with
      | some perf =>
        if 30 < perf.response_time.getD 0
        then [Alert.slowResponse (perf.response_time.getD 0)] else []
      | none => [])

/-- Recognises the API-status alert template. -/
def isApiStatusAlert : Alert → Bool
  | Alert.apiUnhealthy _ => true
  | _ => false

/-- monitor.py lines 211-233 (save_metrics_to_file): the persisted file
content after one save.  `prior = none` embeds a missing or unparsable
file (the handler falls back to `{"records": []}`); otherwise `prior`
is the record list read back.  The new record is appended and only the
last 1000 records are kept. -/
def save_metrics_to_file (prior : Option (List MetricRecord))
    (m : MetricRecord) : List MetricRecord :=
  let records := prior.getD [] ++ [m]
  if records.length > 1000 then records.drop (records.length - 1000)
  else records

/-! ### generate_summary_report (monitor.py lines 265-322) -/

/-- `r.get("system", {}).get("cpu_percent", 0)`. -/
def cpuOf (r : MetricRecord) : Rat :=
  match r.system with
  | some s => s.cpu_percent.getD 0
  | none => 0

/-- `r.get("system", {}).get("memory", {}).get("percent", 0)`. -/
def memOf (r : MetricRecord) : Rat :=
  match r.system with
  | some s => s.memory_percent.getD 0
  | none => 0

/-- `r.get("performance", {}).get("response_time", 0)`. -/
def respOf (r : MetricRecord) : Rat :=
  match r.performance with
  | some p => p.response_time.getD 0
  | none => 0

/-- monitor.py lines 278, 283: cpu values with the `v > 0` filter. -/
def cpu_values (records : List MetricRecord) : List Rat :=
  (records.map cpuOf).filter (fun v => 0 < v)

/-- monitor.py lines 279, 284: memory values with the `v > 0` filter. -/
def memory_values (records : List MetricRecord) : List Rat :=
  (records.map memOf).filter (fun v => 0 < v)

/-- monitor.py lines 280, 285: response times with the `v > 0` filter. -/
def response_times (records : List MetricRecord) : List Rat :=
  (records.map respOf).filter (fun v => 0 < v)

/-- The (min, mean, max) aggregate the report prints for a non-empty
filtered value list (monitor.py lines 293-309), `none` when the list is
empty and the section is skipped. -/
def aggregate (l : List Rat) : Option (Rat × Rat × Rat) :=
  match l with
  | [] => none
  | v :: vs => some ((vs.foldl min v), l.sum / l.length, (vs.foldl max v))

/-- `r.get("api_health", {}).get("status", "unknown")` (line 312). -/
def statusOf (r : MetricRecord) : String :=
  match r.api_health with
  | some a => a.status.getD "unknown"
  | none => "unknown"

/-- monitor.py lines 312-315: the status frequency table, built over all
records (the dict-building loop counts every record's status). -/
def status_counts (records : List MetricRecord) (st : String) : Nat :=
  (records.map statusOf).count st

/-! ## Concrete inputs used by counterexamples and witnesses -/

/-- A request whose temperature override is present and equal to zero. -/
def reqTempZero : ChatRequest :=
  { messages := []
    max_tokens := none
    temperature := some 0
    top_p := none
    stream := false }

/-- A request mixing a non-zero override, a zero override and an absent
override. -/
def reqMixed : ChatRequest :=
  { messages := []
    max_tokens := some 5
    temperature := some 0
    top_p := none
    stream := false }

/-- A backend stub with concrete tokenizer, decoder and generator. -/
def bDemo : Backend :=
  { tokenize := fun s => [s.length]
    decode := fun _ => "ok"
    generated := fun _ _ => [7, 8] }

/-- A request carrying the out-of-domain override top_p = 1.5. -/
def reqTopP15 : ChatRequest :=
  { messages := [{ role := some "user", content := some "hi" }]
    max_tokens := none
    temperature := none
    top_p := some (3/2)
    stream := false }

/-- A deterministic engine stub: for every prompt it yields one
unfinished snapshot with cumulative text "Hel", then the finished
snapshot with the complete text "Hello" (the vLLM snapshot contract:
text grows, the finished snapshot carries the full generated text). -/
def engDemo : Engine := fun _ _ =>
  [ { finished := false, prompt_token_ids := [11], text := "Hel",
      token_ids := [1] },
    { finished := true, prompt_token_ids := [11], text := "Hello",
      token_ids := [1, 2] } ]

/-- A fixed single-turn request. -/
def reqDemo : ChatRequest :=
  { messages := [{ role := some "user", content := some "hi" }]
    max_tokens := none
    temperature := none
    top_p := none
    stream := false }

/-- A record whose health probe failed: the api_health entry carries
only an error field, no status. -/
def recApiDown : MetricRecord :=
  { system := none
    api_health := some { status := none }
    performance := none }

/-- A record with every aggregated field present and positive. -/
def recGood : MetricRecord :=
  { system := some
      { cpu_percent := some 50
        memory_percent := some 40
        disk_percent := some 10
        gpu := [] }
    api_health := some { status := some "healthy" }
    performance := some { response_time := some 2 } }

/-- A record with cpu_percent present but zero while memory is positive
and the probe sub-object is missing. -/
def recMixed : MetricRecord :=
  { system := some
      { cpu_percent := some 0
        memory_percent := some 50
        disk_percent := none
        gpu := [] }
    api_health := none
    performance := none }

/-- One concrete GPU device as reported by the probe. -/
def gpuDemo : GPUStat :=
  { memoryUsed := 8000, memoryTotal := 16000, memoryUtil := 1/2 }

/-! ## Theorems -/

/-- String.join distributes over cons. -/
theorem join_cons_eq (s : String) (l : List String) :
    String.join (s :: l) = s ++ String.join l := by
  apply String.ext
  simp

/-- C5: for every conversation, `format_chat_messages` produces exactly
one role-tagged block per user/assistant turn, in input order (the join
of the per-turn blocks, where a turn with any other role contributes no
block and a missing content field is the empty string), followed by
exactly one trailing open assistant marker. -/
theorem c5_format_one_block_per_turn (messages : List Message) :
    format_chat_messages messages
      = String.join (messages.filterMap turnBlock) ++ "<|im_start|>assistant\n" := by
  have go : ∀ (ms : List Message) (acc : String),
      List.foldl (fun acc m =>
          let role := m.role.getD ""
          let content := m.content.getD ""
          if role = "user" then
            acc ++ "<|im_start|>user\n" ++ content ++ "<|im_end|>\n"
          else if role = "assistant" then
            acc ++ "<|im_start|>assistant\n" ++ content ++ "<|im_end|>\n"
          else acc) acc ms
        = acc ++ String.join (ms.filterMap turnBlock) := by
    intro ms
    induction ms with
    | nil =>
      intro acc
      simp [String.join, String.append_empty]
    | cons m ms ih =>
      intro acc
      rw [List.foldl_cons, ih, List.filterMap_cons]
      by_cases hu : m.role.getD "" = "user"
      · simp [turnBlock, hu, join_cons_eq, String.append_assoc]
      · by_cases ha : m.role.getD "" = "assistant"
        · simp [turnBlock, hu, ha, join_cons_eq, String.append_assoc]
        · simp [turnBlock, hu, ha]
  unfold format_chat_messages
  rw [go, String.empty_append]

/-- C6: after every save, the rolling log has at most 1000 records, and
the surviving records are exactly the most recent suffix of the appended
history — the oldest records are the ones evicted. -/
theorem c6_rolling_log_bound (prior : Option (List MetricRecord))
    (m : MetricRecord) :
    (save_metrics_to_file prior m).length ≤ 1000
    ∧ save_metrics_to_file prior m
      = (prior.getD [] ++ [m]).drop ((prior.getD [] ++ [m]).length - 1000) := by
  unfold save_metrics_to_file
  by_cases h : (prior.getD [] ++ [m]).length > 1000
  · rw [if_pos h]
    refine ⟨?_, rfl⟩
    rw [List.length_drop]
    omega
  · rw [if_neg h]
    refine ⟨by omega, ?_⟩
    rw [Nat.sub_eq_zero_of_le (by omega), List.drop_zero]

/-- C4 failing input: the health operation does fail outward-visibly.
When the device-memory probe fails, the error marker the handler
installs is a string value of the declared `Dict[str, float]` response
field, so response-model validation rejects it and `/health` returns
HTTP 500 instead of the degraded snapshot — with or without a loaded
model; a machine with one GPU fails the same way, because the
per-device entries are nested dicts.  Only the empty-device state
survives validation, and there the status logic is as documented
(`"unhealthy"`, `model_loaded = false` with no model loaded). -/
theorem c4_health_raises_on_degraded_probe :
    health_check none none 42 = Except.error 500
    ∧ health_check (some ()) none 42 = Except.error 500
    ∧ health_check none (some [gpuDemo]) 42 = Except.error 500
    ∧ (∃ resp, health_check none (some []) 42 = Except.ok resp
        ∧ resp.status = "unhealthy" ∧ resp.model_loaded = false) :=
  ⟨rfl, rfl, rfl, ⟨_, rfl, rfl, rfl⟩⟩

/-- The blocking-variant kwargs resolution is field-wise Python-truthiness
resolution over the defaults. -/
theorem resolveGenerationKwargs_eq (req : ChatRequest) :
    resolveGenerationKwargs req =
      { max_new_tokens := pyOrInt req.max_tokens ModelConfig.MAX_TOKENS
        temperature := pyOrRat req.temperature ModelConfig.TEMPERATURE
        top_p := pyOrRat req.top_p ModelConfig.TOP_P
        repetition_penalty := ModelConfig.REPETITION_PENALTY
        do_sample := true
        pad_token_id := 151643
        eos_token_id := 151643 } := by
  unfold resolveGenerationKwargs get_generation_kwargs pyOrInt pyOrRat
  cases req.max_tokens <;> cases req.temperature <;> cases req.top_p <;>
    dsimp only <;> split_ifs <;> rfl

/-- C2 counterexample: with the override `temperature = 0.0` present and
non-null, both servers resolve temperature to the server-wide default
0.7, not to the override — the claim fails on zero-valued overrides. -/
theorem c2_zero_override_counterexample :
    reqTempZero.temperature = some 0
    ∧ (vllmSamplingParams reqTempZero).temperature ≠ 0
    ∧ (resolveGenerationKwargs reqTempZero).temperature ≠ 0
    ∧ (vllmSamplingParams reqTempZero).temperature = ModelConfig.TEMPERATURE
    ∧ (resolveGenerationKwargs reqTempZero).temperature
      = ModelConfig.TEMPERATURE := by
  have h := resolveGenerationKwargs_eq reqTempZero
  refine ⟨rfl, ?_, ?_, ?_, ?_⟩
  · show pyOrRat (some 0) ModelConfig.TEMPERATURE ≠ 0
    norm_num [pyOrRat, ModelConfig.TEMPERATURE]
  · rw [h]
    show pyOrRat (some 0) ModelConfig.TEMPERATURE ≠ 0
    norm_num [pyOrRat, ModelConfig.TEMPERATURE]
  · show pyOrRat (some 0) ModelConfig.TEMPERATURE = ModelConfig.TEMPERATURE
    norm_num [pyOrRat]
  · rw [h]
    show pyOrRat (some 0) ModelConfig.TEMPERATURE = ModelConfig.TEMPERATURE
    norm_num [pyOrRat]

/-- C2 amended: for each of max_tokens, temperature and top_p, on both
servers the resolved configuration equals the override exactly when the
override is present and non-zero; a missing, null or zero override
resolves to the server-wide default (Python truthiness treats zero as
absent). -/
theorem c2_resolution_amended (req : ChatRequest) :
    ((req.max_tokens = none ∨ req.max_tokens = some 0) →
      (vllmSamplingParams req).max_tokens = ModelConfig.MAX_TOKENS
      ∧ (resolveGenerationKwargs req).max_new_tokens = ModelConfig.MAX_TOKENS)
    ∧ (∀ v, req.max_tokens = some v → v ≠ 0 →
      (vllmSamplingParams req).max_tokens = v
      ∧ (resolveGenerationKwargs req).max_new_tokens = v)
    ∧ ((req.temperature = none ∨ req.temperature = some 0) →
      (vllmSamplingParams req).temperature = ModelConfig.TEMPERATURE
      ∧ (resolveGenerationKwargs req).temperature = ModelConfig.TEMPERATURE)
    ∧ (∀ v, req.temperature = some v → v ≠ 0 →
      (vllmSamplingParams req).temperature = v
      ∧ (resolveGenerationKwargs req).temperature = v)
    ∧ ((req.top_p = none ∨ req.top_p = some 0) →
      (vllmSamplingParams req).top_p = ModelConfig.TOP_P
      ∧ (resolveGenerationKwargs req).top_p = ModelConfig.TOP_P)
    ∧ (∀ v, req.top_p = some v → v ≠ 0 →
      (vllmSamplingParams req).top_p = v
      ∧ (resolveGenerationKwargs req).top_p = v) := by
  rw [resolveGenerationKwargs_eq]
  refine ⟨?_, ?_, ?_, ?_, ?_, ?_⟩
  · rintro (h | h) <;> simp [vllmSamplingParams, pyOrInt, h]
  · intro v hv hnz
    simp [vllmSamplingParams, pyOrInt, hv, hnz]
  · rintro (h | h) <;> simp [vllmSamplingParams, pyOrRat, h]
  · intro v hv hnz
    simp [vllmSamplingParams, pyOrRat, hv, hnz]
  · rintro (h | h) <;> simp [vllmSamplingParams, pyOrRat, h]
  · intro v hv hnz
    simp [vllmSamplingParams, pyOrRat, hv, hnz]

/-- Witness for the amended C2 at a concrete request. -/
theorem c2_resolution_amended_witness :
    (vllmSamplingParams reqMixed).max_tokens = 5
    ∧ (vllmSamplingParams reqMixed).temperature = ModelConfig.TEMPERATURE
    ∧ (vllmSamplingParams reqMixed).top_p = ModelConfig.TOP_P :=
  ⟨((c2_resolution_amended reqMixed).2.1 5 rfl (by decide)).1,
   ((c2_resolution_amended reqMixed).2.2.1 (Or.inr rfl)).1,
   ((c2_resolution_amended reqMixed).2.2.2.2.1 (Or.inl rfl)).1⟩

/-- C8: across any two requests, however their client-supplied fields
differ, the resolved repetition penalty and stop sequences passed to the
backend are identical, and equal to the server-wide defaults. -/
theorem c8_not_client_overridable (req1 req2 : ChatRequest) :
    (vllmSamplingParams req1).repetition_penalty
      = (vllmSamplingParams req2).repetition_penalty
    ∧ (vllmSamplingParams req1).stop = (vllmSamplingParams req2).stop
    ∧ (resolveGenerationKwargs req1).repetition_penalty
      = (resolveGenerationKwargs req2).repetition_penalty
    ∧ (vllmSamplingParams req1).repetition_penalty
      = ModelConfig.REPETITION_PENALTY
    ∧ (vllmSamplingParams req1).stop = ["<|im_end|>", "<|endoftext|>"]
    ∧ (resolveGenerationKwargs req1).repetition_penalty
      = ModelConfig.REPETITION_PENALTY := by
  rw [resolveGenerationKwargs_eq, resolveGenerationKwargs_eq]
  exact ⟨rfl, rfl, rfl, rfl, rfl, rfl⟩

/-- C3 counterexample: for the request with top_p = 1.5 the blocking
gateway performs no validation — the backend generation call is made,
receives top_p = 1.5 unchanged, and the request succeeds, so no
InvalidParameter client error is raised before (or after) the call. -/
theorem c3_no_invalid_parameter_counterexample :
    ((model_chat_traced true bDemo reqTopP15).2.map
        (fun c => c.2.top_p)) = [3/2]
    ∧ (∃ r, (model_chat_traced true bDemo reqTopP15).1 = Except.ok r) := by
  refine ⟨?_, ⟨_, rfl⟩⟩
  show [(resolveGenerationKwargs reqTopP15).top_p] = [3/2]
  rw [resolveGenerationKwargs_eq]
  norm_num [pyOrRat, reqTopP15]

/-- C3 amended: the gateway performs no domain validation of overrides.
For every request — out-of-domain values included — the blocking variant
invokes the backend exactly once, with the formatted prompt's token ids
and the truthiness-resolved kwargs passed through unchanged, and the
call succeeds; no InvalidParameter error path exists in the handler. -/
theorem c3_no_validation_amended (b : Backend) (req : ChatRequest) :
    (model_chat_traced true b req).2
      = [(b.tokenize (format_chat_messages req.messages),
          resolveGenerationKwargs req)]
    ∧ (∃ r, (model_chat_traced true b req).1 = Except.ok r) :=
  ⟨rfl, ⟨_, rfl⟩⟩

/-- C1 failing input: with the same prompt and the same deterministic
engine, the non-streaming endpoint returns "Hello" while the deltas the
streaming endpoint emits up to the [DONE] sentinel concatenate to "Hel":
each chunk's delta carries the cumulative snapshot text, and the final
finished snapshot's text is never emitted as a delta, so a consumer
cannot reconstruct the response by concatenation. -/
theorem c1_stream_concat_mismatch :
    (∃ r, vllm_chat (some engDemo) reqDemo = Except.ok r
      ∧ r.response = "Hello")
    ∧ (∃ evs, vllm_chat_stream (some engDemo) reqDemo = Except.ok evs
      ∧ evs = [StreamEvent.chunk (some "Hel"), StreamEvent.chunk none,
               StreamEvent.done]
      ∧ concatDeltas evs = "Hel")
    ∧ ("Hel" : String) ≠ "Hello" :=
  ⟨⟨_, rfl, rfl⟩, ⟨_, rfl, rfl, rfl⟩, by decide⟩

/-- C7: on both servers, every successful non-streaming chat response
satisfies `usage.total_tokens = usage.prompt_tokens +
usage.completion_tokens` (all three counts are natural numbers, hence
non-negative: they arise as lengths of token-id lists). -/
theorem c7_usage_total :
    (∀ (engine : Option Engine) (req : ChatRequest) (r : ChatResponse),
      vllm_chat engine req = Except.ok r →
      r.usage.total_tokens = r.usage.prompt_tokens + r.usage.completion_tokens)
    ∧ (∀ (loaded : Bool) (b : Backend) (req : ChatRequest) (r : ChatResponse),
      model_chat loaded b req = Except.ok r →
      r.usage.total_tokens
        = r.usage.prompt_tokens + r.usage.completion_tokens) := by
  constructor
  · intro engine req r h
    unfold vllm_chat at h
    split at h
    · cases h
    · dsimp only at h
      split at h
      · cases h
      · cases h
        rfl
  · intro loaded b req r h
    unfold model_chat model_chat_traced at h
    dsimp only at h
    split at h
    · cases h
    · cases h
      rfl

/-- Witness for C7 at a concrete engine and request. -/
theorem c7_usage_total_witness :
    ∃ r, vllm_chat (some engDemo) reqDemo = Except.ok r
      ∧ r.usage.total_tokens
        = r.usage.prompt_tokens + r.usage.completion_tokens :=
  ⟨_, rfl, c7_usage_total.1 (some engDemo) reqDemo _ rfl⟩

/-- The gpu alert loop only ever produces gpu alerts. -/
theorem gpuAlerts_no_api (l : List (String × Option Rat)) :
    (gpuAlerts l).any isApiStatusAlert = false := by
  induction l with
  | nil => rfl
  | cons p l ih =>
    rcases p with ⟨id, mp⟩
    rw [gpuAlerts, List.filterMap_cons]
    cases mp with
    | none => exact ih
    | some v =>
      dsimp only
      by_cases h : (95 : Rat) < v
      · rw [if_pos h, List.any_cons]
        have ihg : (List.filterMap _ l).any isApiStatusAlert = false := ih
        simp [isApiStatusAlert, ihg]
      · rw [if_neg h]
        exact ih

/-- The system-resource alert block never produces an API-status alert. -/
theorem systemAlerts_no_api (sys : SystemMetrics) :
    (systemAlerts sys).any isApiStatusAlert = false := by
  unfold systemAlerts
  rw [List.any_append, List.any_append, List.any_append, gpuAlerts_no_api]
  split_ifs <;> simp [isApiStatusAlert]

/-- C9: for every metrics record that has an api_health entry,
check_alerts returns an API-status alert exactly when the entry's status
differs from "healthy" — including the error-only entry with no status
field at all; when the status is "healthy", no API-status alert is
returned. -/
theorem c9_api_status_alert (m : MetricRecord) (api : ApiHealth)
    (h : m.api_health = some api) :
    ((check_alerts m).any isApiStatusAlert = true
      ↔ api.status ≠ some "healthy") := by
  unfold check_alerts
  rw [h]
  rw [List.any_append, List.any_append]
  have hsys : (match m.system with
      | some sys => systemAlerts sys
      | none => ([] : List Alert)).any isApiStatusAlert = false := by
    cases m.system with
    | none => rfl
    | some sys => exact systemAlerts_no_api sys
  have hperf : (match m.performance with
      | some perf =>
        if 30 < perf.response_time.getD 0
        then [Alert.slowResponse (perf.response_time.getD 0)] else []
      | none => ([] : List Alert)).any isApiStatusAlert = false := by
    cases m.performance with
    | none => rfl
    | some perf =>
      dsimp only
      split_ifs <;> simp [isApiStatusAlert]
  rw [hsys, hperf]
  by_cases hs : api.status = some "healthy"
  · simp [hs, isApiStatusAlert]
  · simp [hs, isApiStatusAlert]

/-- Witness for C9: the error-only api_health entry triggers the
API-status alert. -/
theorem c9_api_status_alert_witness :
    (check_alerts recApiDown).any isApiStatusAlert = true :=
  (c9_api_status_alert recApiDown { status := none } rfl).mpr (by simp)

/-- C10: a record whose cpu, memory or probe value is non-positive
(including a missing field defaulted to 0) contributes nothing to the
corresponding min/mean/max aggregate of the summary report — removing
it leaves each aggregate unchanged — while the health-status frequency
table still counts that record and the record total still includes it. -/
theorem c10_summary_exclusion (pre post : List MetricRecord)
    (r : MetricRecord) :
    (cpuOf r ≤ 0 →
      aggregate (cpu_values (pre ++ r :: post))
        = aggregate (cpu_values (pre ++ post)))
    ∧ (memOf r ≤ 0 →
      aggregate (memory_values (pre ++ r :: post))
        = aggregate (memory_values (pre ++ post)))
    ∧ (respOf r ≤ 0 →
      aggregate (response_times (pre ++ r :: post))
        = aggregate (response_times (pre ++ post)))
    ∧ (∀ st, status_counts (pre ++ r :: post) st
        = status_counts (pre ++ post) st
          + (if statusOf r = st then 1 else 0))
    ∧ (pre ++ r :: post).length = (pre ++ post).length + 1 := by
  refine ⟨fun hc => congrArg aggregate ?_, fun hm => congrArg aggregate ?_,
    fun hr => congrArg aggregate ?_, ?_, ?_⟩
  · have hcb : ¬ ((0 : Rat) < cpuOf r) := not_lt.mpr hc
    simp [cpu_values, List.filter_append, List.filter_cons, hcb]
  · have hmb : ¬ ((0 : Rat) < memOf r) := not_lt.mpr hm
    simp [memory_values, List.filter_append, List.filter_cons, hmb]
  · have hrb : ¬ ((0 : Rat) < respOf r) := not_lt.mpr hr
    simp [response_times, List.filter_append, List.filter_cons, hrb]
  · intro st
    unfold status_counts
    rw [List.map_append, List.map_append, List.map_cons,
      List.count_append, List.count_append, List.count_cons]
    by_cases hst : statusOf r = st
    · subst hst
      simp
      omega
    · have hne : (statusOf r == st) = false := beq_eq_false_iff_ne.mpr hst
      simp [hst, hne]
  · simp [List.length_append]
    omega

/-- Witness for C10 at a mixed record: its zero cpu_percent is excluded
from the CPU aggregate (its positive memory value notwithstanding),
while the "unknown" status count still counts the record. -/
theorem c10_summary_exclusion_witness :
    aggregate (cpu_values [recGood, recMixed])
      = aggregate (cpu_values [recGood])
    ∧ status_counts [recGood, recMixed] "unknown"
      = status_counts [recGood] "unknown" + 1 := by
  have h := c10_summary_exclusion [recGood] [] recMixed
  refine ⟨h.1 (by norm_num [cpuOf, recMixed]), ?_⟩
  have h4 := h.2.2.2.1 "unknown"
  simpa [statusOf, recMixed] using h4

end LLMServer
